import Mathlib

/-!
Shallow embedding of the login-throttling backend of Peter92/FlaskWebsite.

Part 1 embeds `core/database.py` (class `DatabaseCommands`): the MySQL
tables touched by the throttle engine become lists of records, the
`UNIX_TIMESTAMP(NOW())` value becomes an explicit `now : Int` parameter,
and each SQL statement becomes the corresponding pure list operation.
Part 2 embeds `flaskapp/database/models/user.py` (`User` and
`PersistentLogin`).

Python strings are modelled as `List Char`, so that slicing such as
`identifier[32:64]` becomes `(identifier.drop 32).take 32`.
-/
/-- Python `str` is modelled as a list of characters. -/
abbrev Str := List Char

/-- Modelled from the spec: `core/constants.py` is not part of the sources;
the spec lists `BAN_TIME_IP`, `BAN_TIME_ACCOUNT`, `MAX_LOGIN_ATTEMPTS_IP`
and `MAX_LOGIN_ATTEMPTS_ACCOUNT` as externally tunable configuration
constants, so they are carried as parameters. -/
structure Config where
  BAN_TIME_IP : Int
  BAN_TIME_ACCOUNT : Int
  MAX_LOGIN_ATTEMPTS_IP : Int
  MAX_LOGIN_ATTEMPTS_ACCOUNT : Int
  deriving DecidableEq

/-- A row of the `login_attempts` table.  `field_data` stores the
quick-hash of the raw login field, as written by `login_attempt_record`. -/
structure LoginAttempt where
  field_data : Str
  ip_id : Nat
  attempt_time : Int
  success : Int
  deriving DecidableEq

/-- A row of the `ip_addresses` table (the columns touched by `ban_ip`). -/
structure IpAddress where
  id : Nat
  ban_until : Int
  ban_count : Int
  deriving DecidableEq

/-- A row of the `accounts` table (the columns read by `login` and
mutated by `ban_account`). -/
structure Account where
  id : Nat
  password : Str
  email_id : Nat
  username : Str
  password_changed : Int
  register_time : Int
  last_activity : Int
  credits : Int
  permission : Int
  activated : Int
  ban_until : Int
  ban_count : Int
  deriving DecidableEq

/-- The database state seen by `DatabaseCommands`. -/
structure DBState where
  login_attempts : List LoginAttempt
  ip_addresses : List IpAddress
  accounts : List Account
  deriving DecidableEq

/-- The `SELECT count(*) ... WHERE success >= 0 AND attempt_time >
UNIX_TIMESTAMP(NOW()) - BAN_TIME_IP AND ip_id = ip` query inside
`failed_logins_ip`. -/
def ipWindowCount (cfg : Config) (now : Int) (s : DBState) (ip : Nat) : Int :=
  (s.login_attempts.countP fun a =>
    decide (0 ≤ a.success ∧ now - cfg.BAN_TIME_IP < a.attempt_time ∧ a.ip_id = ip) : Nat)

/-- `DatabaseCommands.ban_ip`: `UPDATE ip_addresses SET ban_until =
UNIX_TIMESTAMP(NOW()) + length, ban_count = ban_count + 1 WHERE id = ip`;
returns the ban length.  The Python default `length=BAN_TIME_IP` is
supplied explicitly by callers. -/
def ban_ip (now : Int) (s : DBState) (ip : Nat) (length : Int) :
    DBState × Int :=
  ({ s with ip_addresses := s.ip_addresses.map fun row =>
      if row.id = ip then
        { row with ban_until := now + length, ban_count := row.ban_count + 1 }
      else row },
   length)

/-- `DatabaseCommands.failed_logins_ip`: counts the windowed attempts,
computes the remaining attempts, bans the IP when none remain, and
returns the remaining number either way. -/
def failed_logins_ip (cfg : Config) (now : Int) (s : DBState) (ip : Nat) :
    DBState × Int :=
  let login_attempts := ipWindowCount cfg now s ip
  let remaining_attempts := cfg.MAX_LOGIN_ATTEMPTS_IP - login_attempts
  if remaining_attempts ≤ 0 then
    ((ban_ip now s ip cfg.BAN_TIME_IP).1, remaining_attempts)
  else
    (s, remaining_attempts)

/-- The ban-resolution query at the top of
`DatabaseCommands.failed_logins_account`: `SELECT
GREATEST(ban_until, UNIX_TIMESTAMP(NOW())) - UNIX_TIMESTAMP(NOW()) FROM
accounts WHERE id = account_id`, with the Python `IndexError` handler
returning 0 for an unknown id and the `if account_id:` guard returning 0
for a null id. -/
def account_ban_remaining (now : Int) (s : DBState) (account_id : Nat) : Int :=
  if account_id ≠ 0 then
    match (s.accounts.filter fun a => a.id == account_id).head? with
    | some a => max a.ban_until now - now
    | none => 0
  else 0

/-- The `SELECT attempt_time ... WHERE success = 1 AND field_data = hash
ORDER BY attempt_time DESC LIMIT 1` query, with `IndexError` giving 0. -/
def last_success_time (s : DBState) (h : Str) : Int :=
  match ((s.login_attempts.filter fun a =>
      decide (a.success = 1 ∧ a.field_data = h)).map (·.attempt_time)) with
  | [] => 0
  | t :: ts => ts.foldl max t

/-- The `SELECT count(*) FROM login_attempts WHERE attempt_time >
GREATEST(last_login, UNIX_TIMESTAMP(NOW()) - BAN_TIME_ACCOUNT) AND
field_data = hash` query inside `failed_logins_account`. -/
def account_failed_logins (cfg : Config) (now : Int) (s : DBState) (h : Str) : Int :=
  (s.login_attempts.countP fun a =>
    decide (max (last_success_time s h) (now - cfg.BAN_TIME_ACCOUNT) < a.attempt_time ∧
      a.field_data = h) : Nat)

/-- Insertion step of a descending sort by attempt time. -/
def insert_desc (t : Int) : List Int → List Int
  | [] => [t]
  | x :: xs => if x ≤ t then t :: x :: xs else x :: insert_desc t xs

/-- Descending sort, modelling `ORDER BY attempt_time DESC`. -/
def sort_desc : List Int → List Int
  | [] => []
  | x :: xs => insert_desc x (sort_desc xs)

/-- The pseudo-ban offset query for accounts that do not exist: `SELECT
UNIX_TIMESTAMP(NOW()) - attempt_time FROM login_attempts WHERE
success < 1 AND field_data = hash ORDER BY attempt_time DESC LIMIT 1
OFFSET k`, with `IndexError` giving 0. -/
def ban_offset_time (now : Int) (s : DBState) (h : Str) (offset : Nat) : Int :=
  let times := sort_desc ((s.login_attempts.filter fun a =>
      decide (a.success < 1 ∧ a.field_data = h)).map (·.attempt_time))
  match times.drop offset with
  | [] => 0
  | t :: _ => now - t

/-- `DatabaseCommands.ban_account`: updates the account row only when the
id is non-null, and returns the ban length in every case.  The Python
default `length=BAN_TIME_ACCOUNT` is supplied explicitly by callers. -/
def ban_account (now : Int) (s : DBState) (account_id : Nat) (length : Int) :
    DBState × Int :=
  if account_id ≠ 0 then
    ({ s with accounts := s.accounts.map fun row =>
        if row.id = account_id then
          { row with ban_until := now + length, ban_count := row.ban_count + 1 }
        else row },
     length)
  else (s, length)

/-- `DatabaseCommands.failed_logins_account`.  Takes the quick-hash
function as a parameter (`core/hash.py` is external to the sources; the
spec treats `quickHash` as an opaque fixed-length hash).  Returns the new
state, the remaining attempts and the remaining ban time. -/
def failed_logins_account (cfg : Config) (qh : Str → Str) (now : Int)
    (s : DBState) (account_id : Nat) (field_data : Str) :
    DBState × Int × Int :=
  let h := qh field_data
  let ban_remaining := account_ban_remaining now s account_id
  if ban_remaining ≠ 0 then
    (s, 0, ban_remaining)
  else
    let failed_logins := account_failed_logins cfg now s h
    let remaining_attempts := cfg.MAX_LOGIN_ATTEMPTS_ACCOUNT - failed_logins
    if remaining_attempts ≤ 0 then
      let banned := ban_account now s account_id cfg.BAN_TIME_ACCOUNT
      if account_id = 0 then
        let ban_offset := ban_offset_time now s h (-remaining_attempts).toNat
        (banned.1, remaining_attempts, banned.2 - ban_offset)
      else
        (banned.1, remaining_attempts, banned.2)
    else
      (s, remaining_attempts, ban_remaining)

/-- `DatabaseCommands.login_attempt_record`: inserts a row with the
hashed field data, the ip, the current time and the success flag.  The
returned `lastrowid` is unused by the caller and is not modelled. -/
def login_attempt_record (qh : Str → Str) (now : Int) (s : DBState)
    (field_data : Str) (ip_id : Nat) (success : Int) : DBState :=
  { s with login_attempts :=
      { field_data := qh field_data, ip_id := ip_id,
        attempt_time := now, success := success } :: s.login_attempts }

/-- The fields of the `data['account']` dictionary populated by
`DatabaseCommands.login` on a successful credential check. -/
structure LoginAccountData where
  id : Nat
  email_id : Nat
  username : Str
  pw_update : Int
  created : Int
  last_seen : Int
  credits : Int
  permission : Int
  activated : Int
  ban_until : Int
  deriving DecidableEq

/-- The `data` dictionary returned by `DatabaseCommands.login`; the empty
`account` dictionary is modelled as `none`. -/
structure LoginResult where
  account : Option LoginAccountData
  warnings : List String
  errors : List String
  status : Int
  deriving DecidableEq

/-- The credential check at the top of `login`: `if login_data and
password_check(password, login_data[0][0])` sets `valid` to 1, else 0.
`password_check` (`core/hash.py`, external to the sources) is the spec's
opaque Credential Verifier and is carried as the parameter `pc`. -/
def credential_valid (pc : Str → Str → Bool) (s : DBState) (account_id : Nat)
    (password : Str) : Int :=
  match (s.accounts.filter fun a => a.id == account_id).head? with
  | some a => if pc password a.password then 1 else 0
  | none => 0

/-- The `data['account']` fields populated by `login` when the credential
check succeeds; the untouched empty dictionary otherwise. -/
def login_account_data (pc : Str → Str → Bool) (s : DBState) (account_id : Nat)
    (password : Str) : Option LoginAccountData :=
  match (s.accounts.filter fun a => a.id == account_id).head? with
  | some a =>
    if pc password a.password then
      some { id := account_id, email_id := a.email_id, username := a.username,
             pw_update := a.password_changed, created := a.register_time,
             last_seen := a.last_activity, credits := a.credits,
             permission := a.permission, activated := a.activated,
             ban_until := a.ban_until }
    else none
  | none => none

/-- The IP throttling warning built by `login`:
`'You have {} more login attempt{} until your IP is temporarily
banned.'.format(remaining, '' if remaining == 1 else 's')`. -/
def ip_warning (r : Int) : String :=
  "You have " ++ toString r ++ " more login attempt" ++
    (if r = 1 then "" else "s") ++ " until your IP is temporarily banned."

/-- The account throttling warning built by `login`. -/
def account_warning (r : Int) : String :=
  "You have " ++ toString r ++ " more login attempt" ++
    (if r = 1 then "" else "s") ++ " before this account is temporarily disabled."

/-- The account ban error built by `login`:
`'Your account is disabled for another {} seconds.'.format(ban_remaining)`. -/
def ban_error (b : Int) : String :=
  "Your account is disabled for another " ++ toString b ++ " seconds."

/-- `DatabaseCommands.login`.  When both `ip_id` and `form_data` are
supplied it records the attempt, then runs the IP throttle query and the
account throttle query in that order, appending warnings and errors and
possibly overwriting the status with -1; finally `data['status'] = valid`
is returned in the assembled result. -/
def login (cfg : Config) (qh : Str → Str) (pc : Str → Str → Bool) (now : Int)
    (s : DBState) (account_id : Nat) (password : Str)
    (ip_id : Option Nat) (form_data : Option Str) : DBState × LoginResult :=
  let valid := credential_valid pc s account_id password
  let account := login_account_data pc s account_id password
  let errors0 : List String := if valid = 1 then [] else ["Incorrect login details"]
  match ip_id, form_data with
  | some ip, some fd =>
    let s1 := login_attempt_record qh now s fd ip valid
    let ipRes := failed_logins_ip cfg now s1 ip
    let warnings1 : List String :=
      if ipRes.2 ≤ 10 then [ip_warning ipRes.2] else []
    let accRes := failed_logins_account cfg qh now ipRes.1 account_id fd
    if 0 < accRes.2.2 then
      (accRes.1, { account := account, warnings := warnings1,
                   errors := errors0 ++ [ban_error accRes.2.2], status := -1 })
    else if accRes.2.1 ≤ 10 then
      (accRes.1, { account := account,
                   warnings := warnings1 ++ [account_warning accRes.2.1],
                   errors := errors0, status := valid })
    else
      (accRes.1, { account := account, warnings := warnings1,
                   errors := errors0, status := valid })
  | _, _ =>
    (s, { account := account, warnings := [], errors := errors0, status := valid })

/-!
Part 2: `flaskapp/database/models/user.py`.  Only the columns used by
`User.identifier` and `PersistentLogin` are modelled.  `quick_hash`,
`password_hash` and `generate_uuid` live outside the sources
(`utils/hash.py`, `common.py`); the spec treats them as an opaque
fixed-length hash, an opaque password hash and a fresh random value, so
they are carried as parameters (`qh`, `ph`, `new_token`).
-/
/-- A row of the `User` table: the columns feeding `User.identifier`
(stored password hash and the related email address). -/
structure PLUser where
  id : Nat
  password : Str
  email : Str
  deriving DecidableEq

/-- A row of the `PersistentLogin` table.  `token` stores the quick-hash
of the plain token (the `validates('token')` hook hashes on assignment). -/
structure PLSession where
  user_id : Nat
  identifier : Str
  token : Str
  deriving DecidableEq

/-- The database state seen by the session rotator. -/
structure PLState where
  users : List PLUser
  sessions : List PLSession
  deriving DecidableEq

/-- `User.identifier` for a user row: `quick_hash(password + email)`,
the hash of the stored password hash concatenated with the email. -/
def plUserIdentifier (qh : Str → Str) (u : PLUser) : Str :=
  qh (u.password ++ u.email)

/-- `session.user.identifier`: resolve the owning `User` row through the
`user_id` foreign key and take its identifier.  A dangling foreign key
(impossible under the schema's NOT NULL constraint) yields the empty
string. -/
def sessionUserIdentifier (qh : Str → Str) (st : PLState) (p : PLSession) : Str :=
  match (st.users.filter fun u => u.id == p.user_id).head? with
  | some u => plUserIdentifier qh u
  | none => []

/-- `PersistentLogin.__init__`: the identifier is a random 32-char seed
(`quick_hash()` with no argument, modelled from the spec as the `seed`
parameter) concatenated with the user's current identifier; the token is
stored hashed. -/
def issue (qh : Str → Str) (seed : Str) (u : PLUser) (token : Str) : PLSession :=
  { user_id := u.id, identifier := seed ++ plUserIdentifier qh u,
    token := qh token }

/-- `validates('password')` on `User.password`: assigning a plaintext
password stores `password_hash(password)` (the `password_edited`
timestamp hook touches no column read by the session rotator). -/
def set_password (ph : Str → Str) (u : PLUser) (plain : Str) : PLUser :=
  { u with password := ph plain }

/-- `PersistentLogin.get_session`.  Looks the session up by the hash of
the supplied token; on an identifier mismatch with a matching second
half, issues the mass-delete `PersistentLogin.query.filter(
PersistentLogin.user.identifier==session.identifier).delete()` (the
filter compares each row's OWNING USER identifier with the 64-char
session identifier, exactly as written in the source); on success
rotates the token (`regenerate_token`) to the externally generated
`new_token` and returns the session together with the new plain token.
The `user` argument of the classmethod is unused by its body. -/
def get_session (qh : Str → Str) (new_token : Str) (st : PLState)
    (_user : Nat) (token identifier : Str) :
    PLState × Option (PLSession × Str) :=
  let token_h := qh token
  match (st.sessions.filter fun p => p.token == token_h).head? with
  | none => (st, none)
  | some session =>
    if session.identifier ≠ identifier then
      if (session.identifier.drop 32).take 32 = sessionUserIdentifier qh st session then
        ({ st with sessions := st.sessions.filter fun p =>
            !(sessionUserIdentifier qh st p == session.identifier) },
         none)
      else
        (st, none)
    else if (session.identifier.drop 32).take 32 ≠ sessionUserIdentifier qh st session then
      (st, none)
    else
      ({ st with sessions := st.sessions.map fun p =>
          if p.token == token_h then { p with token := qh new_token } else p },
       some ({ session with token := qh new_token }, new_token))

/-- A concrete stand-in for the external `quick_hash`, used only to
instantiate witnesses: pads with `#` and truncates, so every output has
exactly 32 characters. -/
def demo_hash (s : Str) : Str := (s ++ List.replicate 32 '#').take 32

/-- State for the C1 witness: IP 7 has three windowed failed attempts. -/
def c1State : DBState :=
  ⟨[⟨['a'], 7, 990, 0⟩, ⟨['a'], 7, 995, 0⟩, ⟨['a'], 7, 999, 0⟩], [⟨7, 0, 0⟩], []⟩

/-- State for the C2 witness: account 1 is banned until 1500 at time 1000. -/
def c2State : DBState :=
  ⟨[], [], [⟨1, ['p'], 2, ['u'], 5, 5, 5, 0, 1, 1, 1500, 0⟩]⟩

/-- State for the C5 witness: account 1 is banned until 1500. -/
def c5State : DBState :=
  ⟨[], [⟨7, 0, 0⟩], [⟨1, ['p'], 2, ['u'], 5, 5, 5, 0, 1, 1, 1500, 0⟩]⟩

/-- State for the C6 witness: no prior attempts for IP 7. -/
def c6State : DBState := ⟨[], [⟨7, 0, 0⟩], []⟩

/-- State for the C10 witness: three windowed attempts for IP 7 against a
limit of two. -/
def c10State : DBState :=
  ⟨[⟨['a'], 7, 990, 0⟩, ⟨['a'], 7, 995, 0⟩, ⟨['a'], 7, 999, 0⟩], [⟨7, 0, 0⟩], []⟩

/-- The account failure count as the spec words it: only failed or
unknown attempts (`success < 1`) for the hash, strictly after
`max(last success, now - BAN_TIME_ACCOUNT)`.  Stated for comparison with
`account_failed_logins`, whose SQL has no success filter. -/
def specAccountFailedCount (cfg : Config) (now : Int) (s : DBState) (h : Str) : Int :=
  (s.login_attempts.countP fun a =>
    decide (a.success < 1 ∧
      max (last_success_time s h) (now - cfg.BAN_TIME_ACCOUNT) < a.attempt_time ∧
      a.field_data = h) : Nat)

/-- State for the C3 witness: one success at 985, failures at 980 (before
the success), 990 and 995, all for the same login field. -/
def c3State : DBState :=
  ⟨[⟨['a'], 7, 980, 0⟩, ⟨['a'], 7, 990, 0⟩, ⟨['a'], 7, 995, 0⟩, ⟨['a'], 7, 985, 1⟩],
   [], []⟩

/-- User row for the C7 witness. -/
def c7User : PLUser := ⟨1, "pw".toList, "em".toList⟩

/-- Session-free store for the C7 witness. -/
def c7Base : PLState := ⟨[c7User], []⟩

/-- Device seed for the C7 witness. -/
def c7Seed : Str := demo_hash "sd".toList

/-- Store holding the freshly issued session for the C7 witness. -/
def c7Issued : PLState :=
  { c7Base with sessions := [issue demo_hash c7Seed c7User "t1".toList] }

/-- User row for the C8 counterexample. -/
def c8User : PLUser := ⟨1, "pw".toList, "e@x".toList⟩

/-- The single session of the C8 counterexample; it trivially shares its
own identifier. -/
def c8Session : PLSession :=
  issue demo_hash (demo_hash "seed".toList) c8User "tokA".toList

/-- Store for the C8 counterexample. -/
def c8State : PLState := ⟨[c8User], [c8Session]⟩

/-- Pre-change user row for the C9 witness. -/
def c9OldUser : PLUser := ⟨1, "AA".toList, "em".toList⟩

/-- Session issued before the password change, for the C9 witness. -/
def c9Session : PLSession :=
  ⟨1, demo_hash "sd".toList ++ plUserIdentifier demo_hash c9OldUser,
   demo_hash "tk".toList⟩

/-- Store after the password change, for the C9 witness. -/
def c9State : PLState :=
  ⟨[set_password demo_hash c9OldUser "B".toList], [c9Session]⟩

/-! Theorems settling the claims, with their concrete witnesses. -/

/-- C1.  The IP throttle check returns
`MAX_LOGIN_ATTEMPTS_IP - count` where `count` is the number of windowed
attempt rows with `success >= 0`; exactly when that remaining value is
`≤ 0` it bans the IP (every `ip_addresses` row for this IP gets
`ban_until = now + BAN_TIME_IP` and `ban_count` incremented by one) while
leaving the other tables alone, and when the remaining value is positive
the state is untouched; the exhausted remaining value is returned either
way. -/
theorem failed_logins_ip_remaining_and_ban (cfg : Config) (now : Int)
    (s : DBState) (ip : Nat) :
    (failed_logins_ip cfg now s ip).2
      = cfg.MAX_LOGIN_ATTEMPTS_IP - ipWindowCount cfg now s ip ∧
    ((failed_logins_ip cfg now s ip).2 ≤ 0 →
      (failed_logins_ip cfg now s ip).1.login_attempts = s.login_attempts ∧
      (failed_logins_ip cfg now s ip).1.accounts = s.accounts ∧
      ∀ row ∈ s.ip_addresses, row.id = ip →
        { row with ban_until := now + cfg.BAN_TIME_IP,
                   ban_count := row.ban_count + 1 }
          ∈ (failed_logins_ip cfg now s ip).1.ip_addresses) ∧
    (0 < (failed_logins_ip cfg now s ip).2 →
      (failed_logins_ip cfg now s ip).1 = s) := by
  by_cases h : cfg.MAX_LOGIN_ATTEMPTS_IP - ipWindowCount cfg now s ip ≤ 0
  · refine ⟨by simp [failed_logins_ip, h], ?_, ?_⟩
    · intro _
      refine ⟨by simp [failed_logins_ip, ban_ip, h], by simp [failed_logins_ip, ban_ip, h], ?_⟩
      intro row hrow hid
      simp only [failed_logins_ip, ban_ip, h, if_true, List.mem_map]
      exact ⟨row, hrow, by rw [if_pos hid]⟩
    · intro hpos
      simp only [failed_logins_ip, h, if_pos] at hpos
      omega
  · refine ⟨by simp [failed_logins_ip, h], ?_, ?_⟩
    · intro hle
      rw [show (failed_logins_ip cfg now s ip).2
          = cfg.MAX_LOGIN_ATTEMPTS_IP - ipWindowCount cfg now s ip
        from by simp [failed_logins_ip, h]] at hle
      exact absurd hle h
    · intro _
      simp [failed_logins_ip, h]

theorem failed_logins_ip_remaining_and_ban_witness :
    (failed_logins_ip ⟨60, 3600, 2, 5⟩ 1000 c1State 7).2 = -1 ∧
    ({ id := 7, ban_until := 1060, ban_count := 1 } : IpAddress)
      ∈ (failed_logins_ip ⟨60, 3600, 2, 5⟩ 1000 c1State 7).1.ip_addresses := by
  have h := failed_logins_ip_remaining_and_ban ⟨60, 3600, 2, 5⟩ 1000 c1State 7
  refine ⟨by rw [h.1]; decide, ?_⟩
  have hm := (h.2.1 (by rw [h.1]; decide)).2.2 ⟨7, 0, 0⟩ (by decide) (by decide)
  simpa using hm

/-- C2.  An account row with an active ban (`now < ban_until`) makes
`failed_logins_account` short-circuit with remaining attempts 0 and ban
countdown `ban_until - now`, the state untouched; a null account id and
an id matching no account row both resolve to a ban window of 0. -/
theorem failed_logins_account_ban_short_circuit (cfg : Config) (qh : Str → Str)
    (now : Int) (s : DBState) (account_id : Nat) (fd : Str) :
    (∀ a : Account, account_id ≠ 0 →
      (s.accounts.filter fun x => x.id == account_id).head? = some a →
      now < a.ban_until →
      failed_logins_account cfg qh now s account_id fd
        = (s, 0, a.ban_until - now)) ∧
    account_ban_remaining now s 0 = 0 ∧
    (∀ b : Nat, (s.accounts.filter fun x => x.id == b).head? = none →
      account_ban_remaining now s b = 0) := by
  refine ⟨?_, by simp [account_ban_remaining], ?_⟩
  · intro a hid hhead hban
    have hbr : account_ban_remaining now s account_id = a.ban_until - now := by
      simp only [account_ban_remaining, if_pos hid, hhead]
      omega
    have hne : a.ban_until - now ≠ 0 := by omega
    simp [failed_logins_account, hbr, hne]
  · intro b hnone
    by_cases hb : b = 0
    · simp [account_ban_remaining, hb]
    · simp [account_ban_remaining, hb, hnone]

theorem failed_logins_account_ban_short_circuit_witness :
    failed_logins_account ⟨60, 3600, 5, 5⟩ id 1000 c2State 1 ['u']
      = (c2State, 0, 500) := by
  have h := (failed_logins_account_ban_short_circuit ⟨60, 3600, 5, 5⟩ id 1000
    c2State 1 ['u']).1 ⟨1, ['p'], 2, ['u'], 5, 5, 5, 0, 1, 1, 1500, 0⟩
    (by decide) (by decide) (by decide)
  simpa using h

/-- C5.  In a login call with both `ip` and raw login field supplied:
when the account throttle reports a positive ban countdown the result
status is overwritten to -1 and the exact ban error is appended;
otherwise an account warning with the exact remaining count is appended
whenever that count is at most 10; independently an IP warning with the
exact remaining count is appended whenever the IP count is at most 10,
with singular phrasing exactly when the count is 1. -/
theorem login_throttle_messages (cfg : Config) (qh : Str → Str)
    (pc : Str → Str → Bool) (now : Int) (s : DBState) (account_id : Nat)
    (pw : Str) (ip : Nat) (fd : Str) :
    (∀ (v : Int) (s1 : DBState) (ipRes : DBState × Int)
        (accRes : DBState × Int × Int) (res : LoginResult),
      v = credential_valid pc s account_id pw →
      s1 = login_attempt_record qh now s fd ip v →
      ipRes = failed_logins_ip cfg now s1 ip →
      accRes = failed_logins_account cfg qh now ipRes.1 account_id fd →
      res = (login cfg qh pc now s account_id pw (some ip) (some fd)).2 →
      (0 < accRes.2.2 → res.status = -1 ∧ ban_error accRes.2.2 ∈ res.errors) ∧
      (accRes.2.2 ≤ 0 → accRes.2.1 ≤ 10 →
        account_warning accRes.2.1 ∈ res.warnings) ∧
      (ipRes.2 ≤ 10 → ip_warning ipRes.2 ∈ res.warnings)) ∧
    ip_warning 1 = "You have 1 more login attempt until your IP is temporarily banned." ∧
    ∀ r : Int, r ≠ 1 →
      ip_warning r = "You have " ++ toString r ++
        " more login attempts until your IP is temporarily banned." := by
  refine ⟨?_, by decide, ?_⟩
  · intro v s1 ipRes accRes res hv hs1 hip hacc hres
    have hlogin : login cfg qh pc now s account_id pw (some ip) (some fd)
        = (if 0 < accRes.2.2 then
            (accRes.1, { account := login_account_data pc s account_id pw,
                         warnings := if ipRes.2 ≤ 10 then [ip_warning ipRes.2] else [],
                         errors := (if v = 1 then [] else ["Incorrect login details"])
                           ++ [ban_error accRes.2.2],
                         status := -1 })
          else if accRes.2.1 ≤ 10 then
            (accRes.1, { account := login_account_data pc s account_id pw,
                         warnings := (if ipRes.2 ≤ 10 then [ip_warning ipRes.2] else [])
                           ++ [account_warning accRes.2.1],
                         errors := if v = 1 then [] else ["Incorrect login details"],
                         status := v })
          else
            (accRes.1, { account := login_account_data pc s account_id pw,
                         warnings := if ipRes.2 ≤ 10 then [ip_warning ipRes.2] else [],
                         errors := if v = 1 then [] else ["Incorrect login details"],
                         status := v })) := by
      subst hv hs1 hip hacc
      rfl
    subst hres
    rw [hlogin]
    by_cases hb : 0 < accRes.2.2
    · rw [if_pos hb]
      refine ⟨fun _ => ⟨rfl, by simp⟩, fun hle => absurd hb (by omega), fun hw => ?_⟩
      rw [if_pos hw]
      simp
    · rw [if_neg hb]
      by_cases ha : accRes.2.1 ≤ 10
      · rw [if_pos ha]
        refine ⟨fun hb' => absurd hb' hb, fun _ _ => by simp, fun hw => ?_⟩
        rw [if_pos hw]
        simp
      · rw [if_neg ha]
        refine ⟨fun hb' => absurd hb' hb, fun _ ha' => absurd ha' ha, fun hw => ?_⟩
        rw [if_pos hw]
        simp
  · intro r hr
    simp only [ip_warning, if_neg hr, String.append_assoc]
    congr 2

theorem login_throttle_messages_witness :
    (login ⟨60, 3600, 50, 50⟩ id (fun p h => p == h) 1000 c5State
      1 ['p'] (some 7) (some ['u'])).2.status = -1 ∧
    ban_error 500 ∈ (login ⟨60, 3600, 50, 50⟩ id (fun p h => p == h) 1000 c5State
      1 ['p'] (some 7) (some ['u'])).2.errors := by
  have h := ((login_throttle_messages ⟨60, 3600, 50, 50⟩ id (fun p h => p == h)
    1000 c5State 1 ['p'] 7 ['u']).1 _ _ _ _ _ rfl rfl rfl rfl rfl).1 (by decide)
  exact ⟨h.1, h.2⟩

/-- Whenever the IP throttle value computed on the post-recording state
is at most 10, the assembled login result carries the IP warning. -/
theorem login_ip_warning_mem (cfg : Config) (qh : Str → Str)
    (pc : Str → Str → Bool) (now : Int) (s : DBState) (account_id : Nat)
    (pw : Str) (ip : Nat) (fd : Str)
    (hw : (failed_logins_ip cfg now (login_attempt_record qh now s fd ip
        (credential_valid pc s account_id pw)) ip).2 ≤ 10) :
    ip_warning (failed_logins_ip cfg now (login_attempt_record qh now s fd ip
        (credential_valid pc s account_id pw)) ip).2
      ∈ (login cfg qh pc now s account_id pw (some ip) (some fd)).2.warnings := by
  simp only [login]
  rw [if_pos hw]
  split
  · simp
  · split <;> simp

/-- C6.  The credential outcome recorded by `login` is 0 or 1; recording
happens before the throttle queries, so with a positive window both the
IP attempt count and (for a failed attempt) the account failure count
seen by those queries are exactly one more than on the pre-call state,
and the warning `login` emits is derived from that incremented count. -/
theorem login_records_attempt_before_throttle (cfg : Config) (qh : Str → Str)
    (pc : Str → Str → Bool) (now : Int) (s : DBState) (account_id : Nat)
    (pw : Str) (ip : Nat) (fd : Str) :
    ∀ (v : Int) (s1 : DBState),
      v = credential_valid pc s account_id pw →
      s1 = login_attempt_record qh now s fd ip v →
      (0 ≤ v ∧ v ≤ 1) ∧
      (0 < cfg.BAN_TIME_IP →
        ipWindowCount cfg now s1 ip = ipWindowCount cfg now s ip + 1) ∧
      (0 < cfg.BAN_TIME_ACCOUNT → v = 0 → last_success_time s (qh fd) < now →
        account_failed_logins cfg now s1 (qh fd)
          = account_failed_logins cfg now s (qh fd) + 1) ∧
      (cfg.MAX_LOGIN_ATTEMPTS_IP - ipWindowCount cfg now s1 ip ≤ 10 →
        ip_warning (cfg.MAX_LOGIN_ATTEMPTS_IP - ipWindowCount cfg now s1 ip)
          ∈ (login cfg qh pc now s account_id pw (some ip) (some fd)).2.warnings) := by
  intro v s1 hv hs1
  have hv01 : 0 ≤ v ∧ v ≤ 1 := by
    subst hv
    unfold credential_valid
    split
    · split <;> omega
    · omega
  have hatt : s1.login_attempts
      = ({ field_data := qh fd, ip_id := ip, attempt_time := now,
           success := v } : LoginAttempt) :: s.login_attempts := by
    rw [hs1]; rfl
  have hip2 : (failed_logins_ip cfg now s1 ip).2
      = cfg.MAX_LOGIN_ATTEMPTS_IP - ipWindowCount cfg now s1 ip := by
    by_cases h : cfg.MAX_LOGIN_ATTEMPTS_IP - ipWindowCount cfg now s1 ip ≤ 0 <;>
      simp [failed_logins_ip, h]
  refine ⟨hv01, ?_, ?_, ?_⟩
  · intro hB
    unfold ipWindowCount
    rw [hatt, List.countP_cons_of_pos _ _
      (by simp only [decide_eq_true_eq]; exact ⟨hv01.1, by omega, by trivial⟩)]
    push_cast
    ring
  · intro hB hv0 hlast
    have hls : last_success_time s1 (qh fd) = last_success_time s (qh fd) := by
      unfold last_success_time
      rw [hatt, List.filter_cons_of_neg (by simp [hv0])]
    unfold account_failed_logins
    rw [hls, hatt, List.countP_cons_of_pos _ _
      (by simp only [decide_eq_true_eq]; exact ⟨max_lt hlast (by omega), by trivial⟩)]
    push_cast
    ring
  · intro hw
    rw [← hip2] at hw ⊢
    rw [hv] at hs1
    rw [hs1] at hw ⊢
    exact login_ip_warning_mem cfg qh pc now s account_id pw ip fd hw

theorem login_records_attempt_before_throttle_witness :
    ipWindowCount ⟨60, 3600, 11, 11⟩ 1000
        (login_attempt_record id 1000 c6State ['u'] 7
          (credential_valid (fun p h => p == h) c6State 1 ['p'])) 7
      = ipWindowCount ⟨60, 3600, 11, 11⟩ 1000 c6State 7 + 1 ∧
    ip_warning 10 ∈ (login ⟨60, 3600, 11, 11⟩ id (fun p h => p == h) 1000
      c6State 1 ['p'] (some 7) (some ['u'])).2.warnings := by
  have h := login_records_attempt_before_throttle ⟨60, 3600, 11, 11⟩ id
    (fun p h => p == h) 1000 c6State 1 ['p'] 7 ['u'] _ _ rfl rfl
  exact ⟨h.2.1 (by decide), h.2.2.2 (by decide)⟩

/-- On the non-banned path the remaining-attempts component returned by
`failed_logins_account` is the configured maximum minus the windowed
count, in the banning and non-banning branches alike. -/
theorem failed_logins_account_snd_eq (cfg : Config) (qh : Str → Str)
    (now : Int) (s : DBState) (account_id : Nat) (fd : Str)
    (hban : account_ban_remaining now s account_id = 0) :
    (failed_logins_account cfg qh now s account_id fd).2.1
      = cfg.MAX_LOGIN_ATTEMPTS_ACCOUNT - account_failed_logins cfg now s (qh fd) := by
  unfold failed_logins_account
  rw [if_neg (by simp [hban])]
  by_cases hrem : cfg.MAX_LOGIN_ATTEMPTS_ACCOUNT
      - account_failed_logins cfg now s (qh fd) ≤ 0
  · rw [if_pos hrem]
    by_cases hid : account_id = 0 <;> simp [hid]
  · rw [if_neg hrem]

/-- When the account throttle inside `login` reports no active ban and a
remaining count of at most 10, the account warning is appended. -/
theorem login_account_warning_mem (cfg : Config) (qh : Str → Str)
    (pc : Str → Str → Bool) (now : Int) (s : DBState) (account_id : Nat)
    (pw : Str) (ip : Nat) (fd : Str)
    (hb : (failed_logins_account cfg qh now (failed_logins_ip cfg now
        (login_attempt_record qh now s fd ip
          (credential_valid pc s account_id pw)) ip).1 account_id fd).2.2 ≤ 0)
    (ha : (failed_logins_account cfg qh now (failed_logins_ip cfg now
        (login_attempt_record qh now s fd ip
          (credential_valid pc s account_id pw)) ip).1 account_id fd).2.1 ≤ 10) :
    account_warning (failed_logins_account cfg qh now (failed_logins_ip cfg now
        (login_attempt_record qh now s fd ip
          (credential_valid pc s account_id pw)) ip).1 account_id fd).2.1
      ∈ (login cfg qh pc now s account_id pw (some ip) (some fd)).2.warnings := by
  simp only [login]
  rw [if_neg (not_lt.mpr hb), if_pos ha]
  simp

/-- C10.  The remaining-attempts values are never clamped at zero: when
the windowed count exceeds the configured maximum, `failed_logins_ip`
and (on the non-banned path) `failed_logins_account` return a strictly
negative remaining value, the warning strings embed any negative value
verbatim via its decimal rendering, and `login` appends exactly those
strings when the thresholds are hit with a negative count. -/
theorem throttle_remaining_unclamped (cfg : Config) (qh : Str → Str)
    (pc : Str → Str → Bool) (now : Int) (s : DBState) (account_id : Nat)
    (pw : Str) (ip : Nat) (fd : Str) :
    (cfg.MAX_LOGIN_ATTEMPTS_IP < ipWindowCount cfg now s ip →
      (failed_logins_ip cfg now s ip).2 < 0) ∧
    (account_ban_remaining now s account_id = 0 →
      cfg.MAX_LOGIN_ATTEMPTS_ACCOUNT < account_failed_logins cfg now s (qh fd) →
      (failed_logins_account cfg qh now s account_id fd).2.1 < 0) ∧
    (∀ r : Int, r < 0 → ip_warning r = "You have " ++ toString r ++
      " more login attempts until your IP is temporarily banned.") ∧
    (∀ r : Int, r < 0 → account_warning r = "You have " ++ toString r ++
      " more login attempts before this account is temporarily disabled.") ∧
    ((failed_logins_ip cfg now (login_attempt_record qh now s fd ip
        (credential_valid pc s account_id pw)) ip).2 < 0 →
      ip_warning (failed_logins_ip cfg now (login_attempt_record qh now s fd ip
        (credential_valid pc s account_id pw)) ip).2
        ∈ (login cfg qh pc now s account_id pw (some ip) (some fd)).2.warnings) ∧
    (∀ accRes : DBState × Int × Int,
      accRes = failed_logins_account cfg qh now
        (failed_logins_ip cfg now (login_attempt_record qh now s fd ip
          (credential_valid pc s account_id pw)) ip).1 account_id fd →
      accRes.2.2 ≤ 0 → accRes.2.1 < 0 →
      account_warning accRes.2.1
        ∈ (login cfg qh pc now s account_id pw (some ip) (some fd)).2.warnings) := by
  refine ⟨?_, ?_, ?_, ?_, ?_, ?_⟩
  · intro hover
    have hle : cfg.MAX_LOGIN_ATTEMPTS_IP - ipWindowCount cfg now s ip ≤ 0 := by
      omega
    have h2 : (failed_logins_ip cfg now s ip).2
        = cfg.MAX_LOGIN_ATTEMPTS_IP - ipWindowCount cfg now s ip := by
      simp [failed_logins_ip, hle]
    omega
  · intro hban hover
    rw [failed_logins_account_snd_eq cfg qh now s account_id fd hban]
    omega
  · intro r hr
    simp only [ip_warning, if_neg (by omega : r ≠ 1), String.append_assoc]
    congr 2
  · intro r hr
    simp only [account_warning, if_neg (by omega : r ≠ 1), String.append_assoc]
    congr 2
  · intro hneg
    exact login_ip_warning_mem cfg qh pc now s account_id pw ip fd (by omega)
  · intro accRes hacc hb ha
    subst hacc
    exact login_account_warning_mem cfg qh pc now s account_id pw ip fd hb (by omega)

theorem throttle_remaining_unclamped_witness :
    (failed_logins_ip ⟨60, 3600, 2, 2⟩ 1000 c10State 7).2 < 0 ∧
    ip_warning (-1)
      = "You have -1 more login attempts until your IP is temporarily banned." := by
  have h := throttle_remaining_unclamped ⟨60, 3600, 2, 2⟩ id (fun p h => p == h)
    1000 c10State 1 ['p'] 7 ['a']
  exact ⟨h.1 (by decide), (h.2.2.1 (-1) (by decide)).trans (by decide)⟩

/-- Every element of a list is bounded by a `foldl max`, and so is the
initial accumulator. -/
theorem le_foldl_max (l : List Int) (init : Int) :
    init ≤ l.foldl max init ∧ ∀ x ∈ l, x ≤ l.foldl max init := by
  induction l generalizing init with
  | nil => simp
  | cons y ys ih =>
    refine ⟨?_, ?_⟩
    · exact le_trans (le_max_left init y) (ih (max init y)).1
    · intro x hx
      rcases List.mem_cons.mp hx with rfl | hx'
      · exact le_trans (le_max_right init x) (ih (max init x)).1
      · exact (ih (max init y)).2 x hx'

/-- Every successful attempt for a hash happens no later than
`last_success_time`, the time of the most recent success. -/
theorem attempt_le_last_success {s : DBState} {h : Str} {a : LoginAttempt}
    (ha : a ∈ s.login_attempts) (h1 : a.success = 1) (h2 : a.field_data = h) :
    a.attempt_time ≤ last_success_time s h := by
  have hmem : a.attempt_time ∈ ((s.login_attempts.filter fun x =>
      decide (x.success = 1 ∧ x.field_data = h)).map (·.attempt_time)) := by
    exact List.mem_map_of_mem _ (List.mem_filter.mpr ⟨ha, by simp [h1, h2]⟩)
  unfold last_success_time
  split
  · next heq => rw [heq] at hmem; simp at hmem
  · next t ts heq =>
    rw [heq] at hmem
    rcases List.mem_cons.mp hmem with hx | hx
    · rw [hx]; exact (le_foldl_max ts t).1
    · exact (le_foldl_max ts t).2 _ hx

/-- C3.  For a non-banned account, the throttle check returns
`MAX_LOGIN_ATTEMPTS_ACCOUNT` minus the number of failed/unknown attempts
(`success < 1`) for the identifier hash strictly after
`max(last success, now - BAN_TIME_ACCOUNT)` (the window of the spec);
in particular an attempt strictly before the last success never
satisfies the counting window.  The well-formedness hypothesis reflects
the data model's `success ∈ {-1, 0, 1}`. -/
theorem failed_logins_account_failure_window (cfg : Config) (qh : Str → Str)
    (now : Int) (s : DBState) (account_id : Nat) (fd : Str)
    (hwf : ∀ a ∈ s.login_attempts, a.success ≤ 1)
    (hban : account_ban_remaining now s account_id = 0) :
    (failed_logins_account cfg qh now s account_id fd).2.1
      = cfg.MAX_LOGIN_ATTEMPTS_ACCOUNT - specAccountFailedCount cfg now s (qh fd) ∧
    ∀ a ∈ s.login_attempts, a.field_data = qh fd →
      a.attempt_time < last_success_time s (qh fd) →
      ¬ (max (last_success_time s (qh fd)) (now - cfg.BAN_TIME_ACCOUNT)
          < a.attempt_time) := by
  have hcount : account_failed_logins cfg now s (qh fd)
      = specAccountFailedCount cfg now s (qh fd) := by
    unfold account_failed_logins specAccountFailedCount
    congr 1
    apply List.countP_congr
    intro a hmem
    simp only [decide_eq_true_eq]
    constructor
    · rintro ⟨hwin, hfd⟩
      refine ⟨?_, hwin, hfd⟩
      rcases lt_or_eq_of_le (hwf a hmem) with hlt | heq
      · exact hlt
      · exfalso
        have hle := attempt_le_last_success hmem heq hfd
        have : last_success_time s (qh fd)
            ≤ max (last_success_time s (qh fd)) (now - cfg.BAN_TIME_ACCOUNT) :=
          le_max_left _ _
        omega
    · rintro ⟨_, hwin, hfd⟩
      exact ⟨hwin, hfd⟩
  refine ⟨?_, ?_⟩
  · rw [← hcount]
    unfold failed_logins_account
    rw [if_neg (by simp [hban])]
    by_cases hrem : cfg.MAX_LOGIN_ATTEMPTS_ACCOUNT - account_failed_logins cfg now s (qh fd) ≤ 0
    · rw [if_pos hrem]
      by_cases hid : account_id = 0 <;> simp [hid]
    · rw [if_neg hrem]
  · intro a _ _ hbefore
    have := le_max_left (last_success_time s (qh fd)) (now - cfg.BAN_TIME_ACCOUNT)
    omega

theorem failed_logins_account_failure_window_witness :
    (failed_logins_account ⟨60, 3600, 5, 3⟩ id 1000 c3State 0 ['a']).2.1 = 1 := by
  have h := (failed_logins_account_failure_window ⟨60, 3600, 5, 3⟩ id 1000
    c3State 0 ['a'] (by decide) (by decide)).1
  rw [h]
  decide

/-- C4.  `ban_account` with a null account id performs no write and still
returns the requested ban length, and for every account id whatsoever the
returned value is that same length; a missing account is an ordinary
result, not an exception. -/
theorem ban_account_null_noop (now : Int) (s : DBState) (length : Int) :
    ban_account now s 0 length = (s, length) ∧
    ∀ account_id : Nat, (ban_account now s account_id length).2 = length := by
  refine ⟨by simp [ban_account], ?_⟩
  intro account_id
  by_cases h : account_id ≠ 0 <;> simp [ban_account, h]

/-- C7.  A supplied token whose hash matches no stored `PersistentLogin`
row makes `get_session` fail closed, and after issuing a session and
validating it once (which rotates the token), validating again with the
old token fails closed as well: the rotation removed the old hash from
the store.  The hypotheses state that the hash has 32-character outputs
on the values involved, that the owning user row resolves, that the
stored token hashes are unique, and that the fresh token does not
collide with the old one. -/
theorem get_session_unknown_token_and_rotation (qh : Str → Str)
    (nt nt2 : Str) (st : PLState) (uid : Nat) (tok ident : Str)
    (u : PLUser) (seed : Str) :
    ((∀ p ∈ st.sessions, p.token ≠ qh tok) →
      get_session qh nt st uid tok ident = (st, none)) ∧
    (seed.length = 32 →
     (plUserIdentifier qh u).length = 32 →
     (st.users.filter fun x => x.id == u.id).head? = some u →
     (∀ p ∈ st.sessions, p.token ≠ qh tok) →
     qh nt ≠ qh tok →
     ∀ st1 : PLState,
       st1 = { st with sessions := issue qh seed u tok :: st.sessions } →
       (get_session qh nt st1 u.id tok (issue qh seed u tok).identifier).2.isSome ∧
       get_session qh nt2
           (get_session qh nt st1 u.id tok (issue qh seed u tok).identifier).1
           uid tok ident
         = ((get_session qh nt st1 u.id tok (issue qh seed u tok).identifier).1,
            none)) := by
  have hclosed : ∀ (nt' ident' : Str) (st' : PLState) (uid' : Nat),
      (∀ p ∈ st'.sessions, p.token ≠ qh tok) →
      get_session qh nt' st' uid' tok ident' = (st', none) := by
    intro nt' ident' st' uid' hnone
    have hfil : (st'.sessions.filter fun p => p.token == qh tok) = [] := by
      rw [List.filter_eq_nil_iff]
      intro p hp
      simp [hnone p hp]
    simp [get_session, hfil]
  refine ⟨hclosed nt ident st uid, ?_⟩
  intro hseed hlen huser _huniq hnew st1 hst1
  have hsess : issue qh seed u tok
      = ({ user_id := u.id, identifier := seed ++ plUserIdentifier qh u,
           token := qh tok } : PLSession) := rfl
  have hfind : (st1.sessions.filter fun p => p.token == qh tok).head?
      = some (issue qh seed u tok) := by
    rw [hst1]
    show ((issue qh seed u tok :: st.sessions).filter
      fun p => p.token == qh tok).head? = _
    rw [List.filter_cons_of_pos (by simp [hsess])]
    rfl
  have hhalf : (((issue qh seed u tok).identifier.drop 32).take 32)
      = plUserIdentifier qh u := by
    rw [hsess]
    show (((seed ++ plUserIdentifier qh u).drop 32).take 32) = _
    rw [List.drop_left' hseed, ← hlen, List.take_length]
  have huident : sessionUserIdentifier qh st1 (issue qh seed u tok)
      = plUserIdentifier qh u := by
    unfold sessionUserIdentifier
    rw [hst1]
    dsimp only [issue]
    rw [huser]
  have hstep : get_session qh nt st1 u.id tok (issue qh seed u tok).identifier
      = ({ st1 with sessions := st1.sessions.map fun p =>
            if p.token == qh tok then { p with token := qh nt } else p },
         some ({ issue qh seed u tok with token := qh nt }, nt)) := by
    simp only [get_session]
    rw [hfind]
    dsimp only
    rw [if_neg (fun hcontra => hcontra rfl), hhalf, huident,
      if_neg (fun hcontra => hcontra rfl)]
  have hnotok : ∀ p ∈ (st1.sessions.map fun p =>
      if p.token == qh tok then { p with token := qh nt } else p),
      p.token ≠ qh tok := by
    intro p hp
    rcases List.mem_map.mp hp with ⟨q, _hq, rfl⟩
    by_cases hc : q.token == qh tok
    · rw [if_pos hc]
      exact hnew
    · rw [if_neg hc]
      simpa using hc
  constructor
  · rw [hstep]
    rfl
  · rw [hstep]
    exact hclosed nt2 ident _ uid hnotok

theorem get_session_unknown_token_and_rotation_witness :
    (get_session demo_hash "t2".toList c7Issued 1 "t1".toList
        (issue demo_hash c7Seed c7User "t1".toList).identifier).2.isSome ∧
    get_session demo_hash "t3".toList
        (get_session demo_hash "t2".toList c7Issued 1 "t1".toList
          (issue demo_hash c7Seed c7User "t1".toList).identifier).1
        1 "t1".toList []
      = ((get_session demo_hash "t2".toList c7Issued 1 "t1".toList
          (issue demo_hash c7Seed c7User "t1".toList).identifier).1, none) := by
  have h := (get_session_unknown_token_and_rotation demo_hash "t2".toList
    "t3".toList c7Base 1 "t1".toList [] c7User c7Seed).2
    (by decide) (by decide) (by decide) (by decide) (by decide) c7Issued rfl
  exact ⟨h.1, h.2⟩

/-- C8.  Evaluation of `get_session` at a mismatching supplied identifier
whose stored second half does match the owning user's current identifier:
the source's mass-delete filter compares each row's owning-user
identifier (32 characters) with the 64-character session identifier, so
it matches no row and the session sharing the identifier survives, while
the call still returns `none`. -/
theorem get_session_mass_invalidation_noop :
    (get_session demo_hash "new".toList c8State 1 "tokA".toList []).2 = none ∧
    (get_session demo_hash "new".toList c8State 1 "tokA".toList []).1.sessions
      = [c8Session] := by
  constructor <;> decide

/-- C9.  `User.identifier` is the quick-hash of the stored password hash
concatenated with the email, so a password change moves it; a session
issued against the old identifier then fails validation even when the
supplied identifier matches the stored one, because the stored second
half no longer equals the account's current identifier.  The last
hypothesis is the spec's collision-freedom reading of the opaque hash:
the new identifier differs from the old one. -/
theorem password_change_invalidates_sessions (qh ph : Str → Str) (nt : Str)
    (st : PLState) (uid : Nat) (tok : Str) (u : PLUser) (newpw seed : Str)
    (p : PLSession)
    (hseed : seed.length = 32)
    (hlen : (plUserIdentifier qh u).length = 32)
    (hpid : p.identifier = seed ++ plUserIdentifier qh u)
    (hfind : (st.sessions.filter fun x => x.token == qh tok).head? = some p)
    (hlook : (st.users.filter fun x => x.id == p.user_id).head?
      = some (set_password ph u newpw))
    (hdiff : plUserIdentifier qh (set_password ph u newpw)
      ≠ plUserIdentifier qh u) :
    plUserIdentifier qh (set_password ph u newpw) = qh (ph newpw ++ u.email) ∧
    get_session qh nt st uid tok p.identifier = (st, none) := by
  refine ⟨rfl, ?_⟩
  have hhalf : ((p.identifier.drop 32).take 32) = plUserIdentifier qh u := by
    rw [hpid, List.drop_left' hseed, ← hlen, List.take_length]
  have huident : sessionUserIdentifier qh st p
      = plUserIdentifier qh (set_password ph u newpw) := by
    unfold sessionUserIdentifier
    rw [hlook]
  simp only [get_session]
  rw [hfind]
  dsimp only
  rw [if_neg (fun hcontra => hcontra rfl), hhalf, huident,
    if_pos (Ne.symm hdiff)]

theorem password_change_invalidates_sessions_witness :
    get_session demo_hash "n2".toList c9State 1 "tk".toList c9Session.identifier
      = (c9State, none) := by
  have h := password_change_invalidates_sessions demo_hash demo_hash
    "n2".toList c9State 1 "tk".toList c9OldUser "B".toList
    (demo_hash "sd".toList) c9Session
    (by decide) (by decide) (by decide) (by decide) (by decide) (by decide)
  exact h.2
